import Mathlib

/-!
# Health-Monitoring-System: the PostgreSQL persistence adapter

A shallow embedding of `src/database/databaseConnection.cpp`.

* A `PGconn*` is an `Option PGconn` (`none` is `nullptr`), a `PGresult*` an
  `Option PGresult`.
* libpq is an external collaborator.  It is modelled as a `Driver`: two answer
  functions that may depend on everything the driver was asked before, and the
  list of calls made so far.  The adapter's operations thread the driver
  through and append the calls they make.  Only the calls that open or close a
  connection or execute a statement are recorded; `PQstatus`, `PQresultStatus`,
  `PQntuples`, `PQgetvalue`, `PQerrorMessage` and `PQclear` are read-only or
  diagnostic and leave no record, and the text written to `std::cerr` and
  `std::cout` is not modelled.
* `int` values are `Int`; the 32-bit range shows up where the code meets it
  (`std::stoi` raises `std::out_of_range` outside of it).
* `float` and `double` values are elements of a parameter type `F` with the
  operations the source applies to them (`FloatOps`); the general theorems hold
  for every such arithmetic.  Concrete values are computed in IEEE-754
  arithmetic (`ieeeOps`): binary32 for `float`, binary64 for `double`.  What
  the translation unit leaves open (which overload the unqualified `round`
  resolves to, whether `strtof` reports a subnormal result as a range error) is
  a `Toolchain`.
* `std::string` and `const char*` are `String`; where a `std::string` is handed
  to the driver through `c_str()` the driver sees the text before the first NUL.
* A C++ exception is a value of `CxxException`; an operation with reference
  parameters returns their values after the call together with a `Completion`.
-/

namespace HealthMonitoring

/-! ## C++ runtime -/

/-- The exceptions the translation unit can raise: `std::runtime_error` thrown by
`getConnectionInfo`, and the two `std::stoi` / `std::stof` raise. -/
inductive CxxException where
  | runtime_error (what : String)
  | invalid_argument
  | out_of_range
  deriving DecidableEq, Repr

deriving instance DecidableEq for Except

/-- How a call of a `void` function with reference parameters ended. -/
inductive Completion where
  | returned
  | threw (e : CxxException)
  deriving DecidableEq, Repr

/-- The NUL character that terminates a C string. -/
def NUL : Char := Char.ofNat 0

/-- Text seen through `std::string::c_str()` by a callee that takes a
`const char*`: the characters before the first NUL. -/
def c_str (s : String) : String :=
  String.mk (s.data.takeWhile (fun c => c != NUL))

/-! ## libpq -/

/-- Identity of a connection object allocated by libpq. -/
abbrev PGconn := Nat

/-- Values of `ConnStatusType` (libpq-fe.h). -/
inductive ConnStatusType where
  | CONNECTION_OK
  | CONNECTION_BAD
  | CONNECTION_STARTED
  | CONNECTION_MADE
  | CONNECTION_AWAITING_RESPONSE
  | CONNECTION_AUTH_OK
  | CONNECTION_SETENV
  | CONNECTION_SSL_STARTUP
  | CONNECTION_NEEDED
  deriving DecidableEq, Repr

/-- Values of `ExecStatusType` (libpq-fe.h). -/
inductive ExecStatusType where
  | PGRES_EMPTY_QUERY
  | PGRES_COMMAND_OK
  | PGRES_TUPLES_OK
  | PGRES_COPY_OUT
  | PGRES_COPY_IN
  | PGRES_BAD_RESPONSE
  | PGRES_NONFATAL_ERROR
  | PGRES_FATAL_ERROR
  | PGRES_COPY_BOTH
  | PGRES_SINGLE_TUPLE
  | PGRES_PIPELINE_SYNC
  | PGRES_PIPELINE_ABORTED
  deriving DecidableEq, Repr

/-- A result object: its status and its tuples.  A tuple is read by column
number, as `PQgetvalue` does; a NULL field reads as the empty text. -/
structure PGresult where
  status : ExecStatusType
  tuples : List (Nat → String)

/-- The libpq function `PQresultStatus`: a null result pointer reads as
`PGRES_FATAL_ERROR`. -/
def PQresultStatus : Option PGresult → ExecStatusType
  | none => ExecStatusType.PGRES_FATAL_ERROR
  | some res => res.status

/-- The libpq function `PQntuples`: a null result pointer has no tuples. -/
def PQntuples : Option PGresult → Nat
  | none => 0
  | some res => res.tuples.length

/-- The libpq function `PQgetvalue(res, row, column)` for a row the result has. -/
def PQgetvalue (res : Option PGresult) (row column : Nat) : String :=
  match res with
  | none => ""
  | some r =>
    match r.tuples.get? row with
    | none => ""
    | some t => t column

/-- What `PQconnectdb` hands back: the pointer, and the status the connection
object reports. -/
structure ConnectReply where
  conn : Option PGconn
  status : ConnStatusType

/-- The libpq function `PQstatus` of the pointer `PQconnectdb` returned: a null
pointer reads as `CONNECTION_BAD`. -/
def PQstatus (reply : ConnectReply) : ConnStatusType :=
  match reply.conn with
  | none => ConnStatusType.CONNECTION_BAD
  | some _ => reply.status

/-- A recorded call of the driver. -/
inductive DriverCall where
  | PQconnectdb (conninfo : String) (result : Option PGconn)
  | PQfinish (conn : Option PGconn)
  | PQexec (conn : Option PGconn) (query : String)
  | PQexecParams (conn : Option PGconn) (command : String) (nParams : Nat)
      (paramValues : List String)
  deriving DecidableEq, Repr

/-- The driver: how it answers `PQconnectdb` and the two statement calls, given
the calls made before, and the calls made so far (oldest first). -/
structure Driver where
  connect : List DriverCall → String → ConnectReply
  exec : List DriverCall → DriverCall → Option PGresult
  calls : List DriverCall

/-- Append a call to the driver's record. -/
def Driver.record (drv : Driver) (c : DriverCall) : Driver :=
  { drv with calls := drv.calls ++ [c] }

/-! ## The adapter: connection life cycle -/

/-- The process environment as `_dupenv_s` reads it: `none` for a variable that
is not set. -/
abbrev Environment := String → Option String

/-- The data members of `class DatabaseConnection`. -/
structure DatabaseConnection where
  conn : Option PGconn
  connectionInfo : String
  deriving DecidableEq, Repr

namespace DatabaseConnection

/-- Embedding of `DatabaseConnection::getConnectionInfo()`. -/
def getConnectionInfo (env : Environment) : Except CxxException String :=
  let user := env "postgre_user"
  let password := env "postgre_password"
  let host := env "postgre_host"
  let port := env "postgre_port"
  match user, password, host, port with
  | some user, some password, some host, some port =>
    Except.ok ("dbname=patient user=" ++ user ++
      " password=" ++ password ++
      " hostaddr=" ++ host ++
      " port=" ++ port)
  | _, _, _, _ =>
    Except.error
      (CxxException.runtime_error "Error: One or more environment variables are missing.")

/-- The constructor `DatabaseConnection::DatabaseConnection()`: `conn(nullptr)`,
then `connectionInfo = getConnectionInfo()`. -/
def construct (env : Environment) : Except CxxException DatabaseConnection :=
  match getConnectionInfo env with
  | Except.error e => Except.error e
  | Except.ok info => Except.ok { conn := none, connectionInfo := info }

/-- Embedding of `DatabaseConnection::getConnection()`: the returned pointer, the adapter and
the driver after the call. -/
def getConnection (self : DatabaseConnection) (drv : Driver) :
    Option PGconn × DatabaseConnection × Driver :=
  match self.conn with
  | none =>
    let reply := drv.connect drv.calls (c_str self.connectionInfo)
    let drv1 := drv.record (DriverCall.PQconnectdb (c_str self.connectionInfo) reply.conn)
    if PQstatus reply ≠ ConnStatusType.CONNECTION_OK then
      let drv2 := drv1.record (DriverCall.PQfinish reply.conn)
      (none, { self with conn := none }, drv2)
    else
      (reply.conn, { self with conn := reply.conn }, drv1)
  | some c => (some c, self, drv)

/-- The destructor `DatabaseConnection::~DatabaseConnection()`. -/
def destruct (self : DatabaseConnection) (drv : Driver) : Driver :=
  match self.conn with
  | some c => drv.record (DriverCall.PQfinish (some c))
  | none => drv

end DatabaseConnection

/-! ## Accounting of connection handles -/

/-- Effect of one driver call on the handles that are open: `PQconnectdb` opens
the handle it returns, `PQfinish` closes its argument.  `none` when a handle is
closed that is not open.  A null pointer is no handle: `PQconnectdb` returning
it opens nothing and `PQfinish` of it closes nothing. -/
def trackCall (live : List PGconn) : DriverCall → Option (List PGconn)
  | DriverCall.PQconnectdb _ (some h) => some (h :: live)
  | DriverCall.PQconnectdb _ none => some live
  | DriverCall.PQfinish (some h) => if h ∈ live then some (live.erase h) else none
  | DriverCall.PQfinish none => some live
  | DriverCall.PQexec _ _ => some live
  | DriverCall.PQexecParams _ _ _ _ => some live

/-- The handles open after a sequence of driver calls that started with none
open, one entry per `PQconnectdb` not yet matched by a `PQfinish`; `none` when
some call closed a handle that was not open (closed twice, or never opened). -/
def openHandles (calls : List DriverCall) : Option (List PGconn) :=
  calls.foldl (fun live c => live.bind (fun l => trackCall l c)) (some [])

/-- How many times the driver handed out the handle `h`. -/
def timesOpened (calls : List DriverCall) (h : PGconn) : Nat :=
  calls.countP (fun c =>
    match c with
    | DriverCall.PQconnectdb _ (some p) => p = h
    | _ => false)

/-- How many times the handle `h` was given to `PQfinish`. -/
def timesClosed (calls : List DriverCall) (h : PGconn) : Nat :=
  calls.countP (fun c =>
    match c with
    | DriverCall.PQfinish (some p) => p = h
    | _ => false)

/-- Every prefix of the record has at most one handle open, and no prefix
closes a handle that is not open. -/
def AtMostOneOpen (calls : List DriverCall) : Prop :=
  ∀ k, ∃ live, openHandles (calls.take k) = some live ∧ live.length ≤ 1

/-- The invariant of the adapter: the handles open at the driver are exactly
the stored one. -/
def Owns (self : DatabaseConnection) (drv : Driver) : Prop :=
  AtMostOneOpen drv.calls ∧ openHandles drv.calls = some self.conn.toList

namespace DatabaseConnection

/-- A number of successive `getConnection()` calls on one adapter. -/
def getConnections : Nat → DatabaseConnection → Driver → DatabaseConnection × Driver
  | 0, self, drv => (self, drv)
  | n + 1, self, drv =>
    getConnections n (getConnection self drv).2.1 (getConnection self drv).2.2

/-- The driver's record of the whole life of an adapter: construction with the
connection string `info`, `n` calls of `getConnection()`, destruction. -/
def lifetime (connect : List DriverCall → String → ConnectReply)
    (exec : List DriverCall → DriverCall → Option PGresult) (info : String) (n : Nat) :
    List DriverCall :=
  let start : Driver := { connect := connect, exec := exec, calls := [] }
  let used := getConnections n { conn := none, connectionInfo := info } start
  (destruct used.1 used.2).calls

end DatabaseConnection

/-! ## Text and number conversions of the C++ library -/

/-- The constant `INT_MIN` of the 32-bit `int`. -/
def INT_MIN : Int := -2147483648

/-- The constant `INT_MAX` of the 32-bit `int`. -/
def INT_MAX : Int := 2147483647

/-- The library function `isspace` in the C locale: space, and the controls
`\t \n \v \f \r`. -/
def isspace (c : Char) : Bool :=
  c.toNat = 32 || (9 ≤ c.toNat && c.toNat ≤ 13)

/-- The library function `isdigit`: `'0'` to `'9'`. -/
def isdigit (c : Char) : Bool :=
  48 ≤ c.toNat && c.toNat ≤ 57

/-- The character of a decimal digit. -/
def digitChar (d : Nat) : Char := Char.ofNat (48 + d)

/-- Decimal digits of `n`, most significant first, put in front of `acc`;
`fuel` bounds the number of digits. -/
def decimalDigits : Nat → Nat → List Char → List Char
  | 0, _, acc => acc
  | fuel + 1, n, acc =>
    if n < 10 then digitChar n :: acc
    else decimalDigits fuel (n / 10) (digitChar (n % 10) :: acc)

/-- The library function `std::to_string(int)`: the `%d` rendering. -/
def to_string (n : Int) : String :=
  if n < 0 then String.mk ('-' :: decimalDigits (n.natAbs + 1) n.natAbs [])
  else String.mk (decimalDigits (n.natAbs + 1) n.natAbs [])

/-- Value of a run of decimal digits, most significant first. -/
def digitsValue (digits : List Char) : Nat :=
  digits.foldl (fun a c => 10 * a + (c.toNat - 48)) 0

/-- The end of `std::stoi`: no digit converted raises `std::invalid_argument`, a
value outside the range of `int` raises `std::out_of_range`. -/
def stoiDigits (negative : Bool) (digits : List Char) : Except CxxException Int :=
  if digits.isEmpty then Except.error CxxException.invalid_argument
  else
    let v : Int := if negative then -(digitsValue digits : Int) else (digitsValue digits : Int)
    if v < INT_MIN ∨ INT_MAX < v then Except.error CxxException.out_of_range
    else Except.ok v

/-- The library function `std::stoi(text)` in base 10 (through `strtol`):
leading white space is skipped, one sign is accepted, the longest run of digits
is converted and whatever follows it is ignored. -/
def stoi (s : String) : Except CxxException Int :=
  match s.data.dropWhile isspace with
  | '-' :: rest => stoiDigits true (rest.takeWhile isdigit)
  | '+' :: rest => stoiDigits false (rest.takeWhile isdigit)
  | rest => stoiDigits false (rest.takeWhile isdigit)

/-- The floating-point operations the source applies, over a type `F` of `float`
and `double` values: `std::stof`, `std::to_string(double)`, the product and the
quotient of a floating value and an `int`, and `round`. -/
structure FloatOps (F : Type) where
  stof : String → Except CxxException F
  to_string : F → String
  mulInt : F → Int → F
  divInt : F → Int → F
  round : F → F

/-! ## The adapter: statements -/

/-- The reference parameters of `retrievePatientData`. -/
structure PatientData (F : Type) where
  name : String
  gender : String
  ageGroup : String
  exactAge : String
  heartRate : Int
  bloodPressure1 : Int
  bloodPressure2 : Int
  temperature : F
  deriving DecidableEq

namespace DatabaseConnection

/-- The statement text of `insertPatientData`. -/
def insertSql : String :=
  "INSERT INTO patient_health_data (name, gender, ageGroup, exactAge, heartRate, bloodPressure1, bloodPressure2, temperature) " ++
    "VALUES ($1, $2, $3, $4, $5, $6, $7, $8);"

/-- The eight texts `insertPatientData` binds to `$1` .. `$8`. -/
def insertParams {F : Type} (fp : FloatOps F) (name gender ageGroup exactAge : String)
    (heartRate bloodPressure1 bloodPressure2 : Int) (temperature : F) : List String :=
  let heartRateStr := to_string heartRate
  let bloodPressure1Str := to_string bloodPressure1
  let bloodPressure2Str := to_string bloodPressure2
  let temperatureStr := fp.to_string temperature
  [c_str name, c_str gender, c_str ageGroup, c_str exactAge, c_str heartRateStr,
    c_str bloodPressure1Str, c_str bloodPressure2Str, c_str temperatureStr]

/-- Embedding of `DatabaseConnection::insertPatientData`: the driver after the
call.  The function returns nothing and raises nothing; the two paths differ
only in the message written (to `std::cerr` when the status is not
`PGRES_COMMAND_OK`, to `std::cout` otherwise). -/
def insertPatientData {F : Type} (fp : FloatOps F) (drv : Driver) (conn : Option PGconn)
    (name gender ageGroup exactAge : String)
    (heartRate bloodPressure1 bloodPressure2 : Int) (temperature : F) : Driver :=
  let call := DriverCall.PQexecParams conn (c_str insertSql) 8
    (insertParams fp name gender ageGroup exactAge heartRate bloodPressure1 bloodPressure2
      temperature)
  let res := drv.exec drv.calls call
  let drv1 := drv.record call
  if PQresultStatus res ≠ ExecStatusType.PGRES_COMMAND_OK then drv1
  else drv1

/-- The query text `retrievePatientId` builds for a name. -/
def patientIdQuery (name : String) : String :=
  "SELECT id FROM patient_health_data WHERE name = '" ++ name ++ "';"

/-- Embedding of `DatabaseConnection::retrievePatientId`: the value of `id`
after the call, how the call ended, and the driver. -/
def retrievePatientId (drv : Driver) (conn : Option PGconn) (id : Int) (name : String) :
    Int × Completion × Driver :=
  let query := patientIdQuery name
  let call := DriverCall.PQexec conn (c_str query)
  let res := drv.exec drv.calls call
  let drv1 := drv.record call
  if PQresultStatus res ≠ ExecStatusType.PGRES_TUPLES_OK then (id, Completion.returned, drv1)
  else
    let numRows := PQntuples res
    if numRows = 0 then (id, Completion.returned, drv1)
    else
      match stoi (PQgetvalue res 0 0) with
      | Except.error e => (id, Completion.threw e, drv1)
      | Except.ok v => (v, Completion.returned, drv1)

/-- The statement text of `retrievePatientData`. -/
def patientDataQuery : String :=
  "SELECT name, gender, ageGroup, exactAge, heartRate, bloodPressure1, bloodPressure2, temperature " ++
    "FROM patient_health_data WHERE id = $1;"

/-- The assignments of `retrievePatientData` from the first tuple, in source
order; an exception leaves the assignments made before it in place. -/
def assignPatientData {F : Type} (fp : FloatOps F) (res : Option PGresult)
    (out : PatientData F) : PatientData F × Completion :=
  let out1 := { out with name := PQgetvalue res 0 0 }
  let out2 := { out1 with gender := PQgetvalue res 0 1 }
  let out3 := { out2 with ageGroup := PQgetvalue res 0 2 }
  let out4 := { out3 with exactAge := PQgetvalue res 0 3 }
  match stoi (PQgetvalue res 0 4) with
  | Except.error e => (out4, Completion.threw e)
  | Except.ok heartRate =>
    let out5 := { out4 with heartRate := heartRate }
    match stoi (PQgetvalue res 0 5) with
    | Except.error e => (out5, Completion.threw e)
    | Except.ok bloodPressure1 =>
      let out6 := { out5 with bloodPressure1 := bloodPressure1 }
      match stoi (PQgetvalue res 0 6) with
      | Except.error e => (out6, Completion.threw e)
      | Except.ok bloodPressure2 =>
        let out7 := { out6 with bloodPressure2 := bloodPressure2 }
        match fp.stof (PQgetvalue res 0 7) with
        | Except.error e => (out7, Completion.threw e)
        | Except.ok x =>
          ({ out7 with temperature := fp.divInt (fp.round (fp.mulInt x 10)) 10 },
            Completion.returned)

/-- Embedding of `DatabaseConnection::retrievePatientData`: the values of the
eight reference parameters after the call, how the call ended, and the driver. -/
def retrievePatientData {F : Type} (fp : FloatOps F) (drv : Driver) (conn : Option PGconn)
    (id : Int) (out : PatientData F) : PatientData F × Completion × Driver :=
  let query := patientDataQuery
  let idStr := to_string id
  let call := DriverCall.PQexecParams conn (c_str query) 1 [c_str idStr]
  let res := drv.exec drv.calls call
  let drv1 := drv.record call
  if PQresultStatus res ≠ ExecStatusType.PGRES_TUPLES_OK then (out, Completion.returned, drv1)
  else
    let numRows := PQntuples res
    if numRows = 0 then (out, Completion.returned, drv1)
    else ((assignPatientData fp res out).1, (assignPatientData fp res out).2, drv1)

end DatabaseConnection

/-! ## Floating-point arithmetic

`float` is IEEE-754 binary32 and `double` is binary64, both rounding to nearest,
ties to even.  A value of either type is a `FloatValue`; every `float` value is
also a `double` value.  The sign and payload of a NaN are not told apart. -/

/-- A floating-point value: a finite value given by its sign and its magnitude
(so that `-0.0` is not `0.0`), an infinity, or NaN. -/
inductive FloatValue where
  | finite (negative : Bool) (magnitude : ℚ)
  | infinity (negative : Bool)
  | nan
  deriving DecidableEq

/-- A binary format: the number of significand bits and the exponents of the
smallest and of the largest normal binade. -/
structure Format where
  precision : Nat
  emin : Int
  emax : Int

/-- The format of `float`. -/
def binary32 : Format := { precision := 24, emin := -126, emax := 127 }

/-- The format of `double`. -/
def binary64 : Format := { precision := 53, emin := -1022, emax := 1023 }

/-- The number of times `n` can be halved before it is below 2, which for
`n ≥ 1` is the exponent of its leading bit; `fuel` bounds the count. -/
def leadingBit : Nat → Nat → Nat
  | 0, _ => 0
  | fuel + 1, n => if n < 2 then 0 else leadingBit fuel (n / 2) + 1

/-- The exponent `e` with `2 ^ e ≤ q < 2 ^ (e + 1)`, for a positive `q`. -/
def floorLog2 (q : ℚ) : Int :=
  let e : Int := (leadingBit q.num.natAbs q.num.natAbs : Int) - (leadingBit q.den q.den : Int)
  if (2 : ℚ) ^ e ≤ q then e else e - 1

/-- The nearest integer to a non-negative `x`, halfway cases to the even one. -/
def roundHalfEven (x : ℚ) : Nat :=
  let f := Rat.floor x
  let r := x - (f : ℚ)
  if r < 1 / 2 then f.toNat
  else if 1 / 2 < r then f.toNat + 1
  else if f % 2 = 0 then f.toNat
  else f.toNat + 1

/-- The magnitude `q ≥ 0` rounded to the format, to nearest and ties to even,
with gradual underflow; `none` when the rounded value is beyond the largest
finite value of the format. -/
def roundMagnitude (fmt : Format) (q : ℚ) : Option ℚ :=
  if q = 0 then some 0
  else
    let e := max (floorLog2 q) fmt.emin
    let quantum : ℚ := (2 : ℚ) ^ (e - ((fmt.precision : Int) - 1))
    let r : ℚ := (roundHalfEven (q / quantum) : ℚ) * quantum
    if (2 : ℚ) ^ (fmt.emax + 1) ≤ r then none else some r

/-- The signed exact value rounded to the format; overflow gives an infinity. -/
def roundToFormat (fmt : Format) (negative : Bool) (q : ℚ) : FloatValue :=
  match roundMagnitude fmt q with
  | some r => FloatValue.finite negative r
  | none => FloatValue.infinity negative

/-- The `double` a decimal literal of the source denotes. -/
def doubleLiteral (q : ℚ) : FloatValue :=
  roundToFormat binary64 (decide (q < 0)) |q|

/-- Conversion of an `int` to the format. -/
def ofInt (fmt : Format) (n : Int) : FloatValue :=
  roundToFormat fmt (decide (n < 0)) (n.natAbs : ℚ)

/-- The product of two values, rounded to the format. -/
def FloatValue.mul (fmt : Format) : FloatValue → FloatValue → FloatValue
  | FloatValue.nan, _ => FloatValue.nan
  | _, FloatValue.nan => FloatValue.nan
  | FloatValue.infinity s, FloatValue.infinity t => FloatValue.infinity (xor s t)
  | FloatValue.infinity s, FloatValue.finite t m =>
    if m = 0 then FloatValue.nan else FloatValue.infinity (xor s t)
  | FloatValue.finite s m, FloatValue.infinity t =>
    if m = 0 then FloatValue.nan else FloatValue.infinity (xor s t)
  | FloatValue.finite s m, FloatValue.finite t k => roundToFormat fmt (xor s t) (m * k)

/-- The quotient of two values, rounded to the format. -/
def FloatValue.div (fmt : Format) : FloatValue → FloatValue → FloatValue
  | FloatValue.nan, _ => FloatValue.nan
  | _, FloatValue.nan => FloatValue.nan
  | FloatValue.infinity _, FloatValue.infinity _ => FloatValue.nan
  | FloatValue.infinity s, FloatValue.finite t _ => FloatValue.infinity (xor s t)
  | FloatValue.finite s _, FloatValue.infinity t => FloatValue.finite (xor s t) 0
  | FloatValue.finite s m, FloatValue.finite t k =>
    if k = 0 then
      if m = 0 then FloatValue.nan else FloatValue.infinity (xor s t)
    else roundToFormat fmt (xor s t) (m / k)

/-- The library function `round`: to the nearest integer, halfway cases away
from zero; the sign is kept, infinities and NaN are returned as they are. -/
def FloatValue.round : FloatValue → FloatValue
  | FloatValue.finite s m => FloatValue.finite s ((Rat.floor (m + 1 / 2) : Int) : ℚ)
  | FloatValue.infinity s => FloatValue.infinity s
  | FloatValue.nan => FloatValue.nan

/-- The last `count` decimal digits of `n`, least significant last, zero padded. -/
def paddedDigits : Nat → Nat → List Char
  | 0, _ => []
  | count + 1, n => paddedDigits count (n / 10) ++ [digitChar (n % 10)]

/-- The `%f` rendering of a non-negative magnitude: the integer part, a point
and six digits, the last digit rounded to nearest, ties to even. -/
def sixDecimals (m : ℚ) : List Char :=
  let scaled := roundHalfEven (m * 1000000)
  decimalDigits (scaled / 1000000 + 1) (scaled / 1000000) [] ++
    '.' :: paddedDigits 6 (scaled % 1000000)

/-- The library function `std::to_string(double)`: the `%f` rendering. -/
def to_string_double : FloatValue → String
  | FloatValue.finite negative m =>
    if negative then String.mk ('-' :: sixDecimals m) else String.mk (sixDecimals m)
  | FloatValue.infinity negative => if negative then "-inf" else "inf"
  | FloatValue.nan => "nan"

/-- What the translation unit does not fix about floating point.
`roundIsFloat`: the unqualified call `round(x)` with a `float` argument
resolves to the overload `float round(float)`, so the division that follows is
a `float` division; otherwise it resolves to `double round(double)` and the
division is a `double` division.  Which of the two is declared depends on the
headers `databaseConnection.h` pulls in.
`subnormalIsRangeError`: `strtof` sets `ERANGE` for a non-zero subnormal result
that is not exact (the C standard leaves this to the implementation). -/
structure Toolchain where
  roundIsFloat : Bool
  subnormalIsRangeError : Bool
  deriving DecidableEq

/-- The format of the result of `round` and of the division after it. -/
def Toolchain.roundFormat (p : Toolchain) : Format :=
  if p.roundIsFloat then binary32 else binary64

/-- The library function `tolower` on the letters `A` to `Z`. -/
def tolower (c : Char) : Char :=
  if 65 ≤ c.toNat ∧ c.toNat ≤ 90 then Char.ofNat (c.toNat + 32) else c

/-- Whether `cs` starts with the lower-case `word`, ignoring case. -/
def startsWithIgnoringCase (word cs : List Char) : Bool :=
  (cs.take word.length).map tolower = word

/-- The library function `isxdigit`. -/
def isxdigit (c : Char) : Bool :=
  isdigit c || (97 ≤ (tolower c).toNat && (tolower c).toNat ≤ 102)

/-- Value of a run of hexadecimal digits, most significant first. -/
def hexValue (digits : List Char) : Nat :=
  digits.foldl (fun a c =>
    16 * a + (if isdigit c then c.toNat - 48 else (tolower c).toNat - 87)) 0

/-- The exponent part after a mantissa, introduced by the lower-case `marker`
(`e` for a decimal, `p` for a hexadecimal literal): the marker, an optional
sign and at least one decimal digit; 0 when there is no such part. -/
def exponentPart (marker : Char) : List Char → Int
  | [] => 0
  | c :: rest =>
    if tolower c = marker then
      match rest with
      | '-' :: ds => -(digitsValue (ds.takeWhile isdigit) : Int)
      | '+' :: ds => (digitsValue (ds.takeWhile isdigit) : Int)
      | ds => (digitsValue (ds.takeWhile isdigit) : Int)
    else 0

/-- The exact value of the decimal literal at the head of `cs` (digits, an
optional point and more digits, an optional exponent); `none` when there is no
digit. -/
def decimalLiteral (cs : List Char) : Option ℚ :=
  let whole := cs.takeWhile isdigit
  let afterWhole := cs.dropWhile isdigit
  let fraction := match afterWhole with
    | '.' :: rest => rest.takeWhile isdigit
    | _ => []
  let afterMantissa := match afterWhole with
    | '.' :: rest => rest.dropWhile isdigit
    | rest => rest
  if whole.isEmpty ∧ fraction.isEmpty then none
  else
    some ((digitsValue (whole ++ fraction) : ℚ) / (10 : ℚ) ^ fraction.length *
      (10 : ℚ) ^ exponentPart 'e' afterMantissa)

/-- The exact value of the hexadecimal literal whose digits start at `cs`, the
text after `0x` (hexadecimal digits, an optional point and more digits, an
optional binary exponent); `none` when there is no hexadecimal digit. -/
def hexLiteral (cs : List Char) : Option ℚ :=
  let whole := cs.takeWhile isxdigit
  let afterWhole := cs.dropWhile isxdigit
  let fraction := match afterWhole with
    | '.' :: rest => rest.takeWhile isxdigit
    | _ => []
  let afterMantissa := match afterWhole with
    | '.' :: rest => rest.dropWhile isxdigit
    | rest => rest
  if whole.isEmpty ∧ fraction.isEmpty then none
  else
    some ((hexValue (whole ++ fraction) : ℚ) / (16 : ℚ) ^ fraction.length *
      (2 : ℚ) ^ exponentPart 'p' afterMantissa)

/-- The exact value of the finite literal at the head of `cs`: a hexadecimal
literal after `0x` when one is there, a decimal literal otherwise. -/
def finiteLiteral (cs : List Char) : Option ℚ :=
  match cs with
  | '0' :: x :: rest =>
    if tolower x = 'x' then
      match hexLiteral rest with
      | some q => some q
      | none => decimalLiteral cs
    else decimalLiteral cs
  | _ => decimalLiteral cs

/-- The end of `std::stof`: the exact magnitude is rounded to `float`.
`std::out_of_range` is raised when `strtof` reports `ERANGE`: the value is
beyond the largest `float`, or it is not zero and rounds to zero, or (on a
platform that does so) it rounds inexactly to a subnormal. -/
def stofRound (p : Toolchain) (negative : Bool) (q : ℚ) : Except CxxException FloatValue :=
  match roundMagnitude binary32 q with
  | none => Except.error CxxException.out_of_range
  | some r =>
    if q ≠ 0 ∧ r = 0 then Except.error CxxException.out_of_range
    else if p.subnormalIsRangeError ∧ r < (2 : ℚ) ^ binary32.emin ∧ r ≠ q then
      Except.error CxxException.out_of_range
    else Except.ok (FloatValue.finite negative r)

/-- The text after the white space and the sign, as `strtof` reads it:
`inf` or `infinity`, `nan`, or a finite literal; `std::invalid_argument` when
it starts with none of them. -/
def stofUnsigned (p : Toolchain) (negative : Bool) (cs : List Char) :
    Except CxxException FloatValue :=
  if startsWithIgnoringCase ['i', 'n', 'f'] cs then Except.ok (FloatValue.infinity negative)
  else if startsWithIgnoringCase ['n', 'a', 'n'] cs then Except.ok FloatValue.nan
  else
    match finiteLiteral cs with
    | none => Except.error CxxException.invalid_argument
    | some q => stofRound p negative q

/-- The library function `std::stof(text)` (through `strtof`): leading white
space is skipped, one sign is accepted, the longest literal is converted and
whatever follows it is ignored. -/
def stof (p : Toolchain) (s : String) : Except CxxException FloatValue :=
  match s.data.dropWhile isspace with
  | '-' :: rest => stofUnsigned p true rest
  | '+' :: rest => stofUnsigned p false rest
  | rest => stofUnsigned p false rest

/-- The floating-point operations of the program on a platform: `x * 10` is a
`float` product (the `int` is converted to `float`), `round` and the division
by the `int` after it are in the format the overload of `round` returns. -/
def ieeeOps (p : Toolchain) : FloatOps FloatValue :=
  { stof := stof p
    to_string := to_string_double
    mulInt := fun x n => FloatValue.mul binary32 x (ofInt binary32 n)
    divInt := fun x n => FloatValue.div p.roundFormat x (ofInt p.roundFormat n)
    round := FloatValue.round }

/-- A build in which `round(float)` is the `float` overload and `strtof` accepts
subnormal results. -/
def floatRound : Toolchain := { roundIsFloat := true, subnormalIsRangeError := false }

/-- A build in which `round` is `double round(double)` and `strtof` accepts
subnormal results. -/
def doubleRound : Toolchain := { roundIsFloat := false, subnormalIsRangeError := false }

/-! ## The database of the round-trip property

The round trip is stated over a database that keeps the eight parameter texts
of every `INSERT` it is sent as one row, numbers the rows 1, 2, 3, ... in the
order of arrival, and answers the `SELECT` by id with the texts of that row. -/

/-- The rows stored by the calls made so far: the parameter texts of each
`INSERT` statement of `insertPatientData`, oldest first. -/
def storedRows (calls : List DriverCall) : List (List String) :=
  calls.filterMap (fun c =>
    match c with
    | DriverCall.PQexecParams _ command _ paramValues =>
      if command = DatabaseConnection.insertSql then some paramValues else none
    | _ => none)

/-- The row with the given id, ids counted from 1. -/
def storedRow (calls : List DriverCall) (id : Int) : Option (List String) :=
  if 1 ≤ id then (storedRows calls).get? (id.toNat - 1) else none

/-- The answers of the storing database. -/
def storingExec (calls : List DriverCall) : DriverCall → Option PGresult
  | DriverCall.PQexecParams _ command _ paramValues =>
    if command = DatabaseConnection.insertSql then
      some { status := ExecStatusType.PGRES_COMMAND_OK, tuples := [] }
    else if command = DatabaseConnection.patientDataQuery then
      match paramValues with
      | [idText] =>
        match stoi idText with
        | Except.ok id =>
          match storedRow calls id with
          | some row =>
            some { status := ExecStatusType.PGRES_TUPLES_OK,
                   tuples := [fun column => row.getD column ""] }
          | none => some { status := ExecStatusType.PGRES_TUPLES_OK, tuples := [] }
        | Except.error _ => some { status := ExecStatusType.PGRES_FATAL_ERROR, tuples := [] }
      | _ => some { status := ExecStatusType.PGRES_FATAL_ERROR, tuples := [] }
    else some { status := ExecStatusType.PGRES_FATAL_ERROR, tuples := [] }
  | _ => some { status := ExecStatusType.PGRES_FATAL_ERROR, tuples := [] }

/-- The storing database after the calls `calls`. -/
def storingDatabase (calls : List DriverCall) : Driver :=
  { connect := fun past _ => { conn := some (past.length + 1),
                               status := ConnStatusType.CONNECTION_OK }
    exec := storingExec
    calls := calls }

/-- The id the database assigns to the row it stores next. -/
def assignedId (calls : List DriverCall) : Int :=
  ((storedRows calls).length : Int) + 1

namespace DatabaseConnection

/-- Insert a record into the storing database, then fetch the row with the id
the insert was assigned, into reference parameters that hold `out`. -/
def roundTrip {F : Type} (fp : FloatOps F) (calls : List DriverCall) (conn : Option PGconn)
    (name gender ageGroup exactAge : String)
    (heartRate bloodPressure1 bloodPressure2 : Int) (temperature : F)
    (out : PatientData F) : PatientData F × Completion :=
  let inserted := insertPatientData fp (storingDatabase calls) conn name gender ageGroup
    exactAge heartRate bloodPressure1 bloodPressure2 temperature
  let fetched := retrievePatientData fp inserted conn (assignedId calls) out
  (fetched.1, fetched.2.1)

end DatabaseConnection

/-! ## Sample inputs -/

/-- An environment with the four variables set. -/
def sampleEnvironment : Environment := fun name =>
  if name = "postgre_user" then some "nurse"
  else if name = "postgre_password" then some "s3cret"
  else if name = "postgre_host" then some "127.0.0.1"
  else if name = "postgre_port" then some "5432"
  else none

/-- An environment in which `postgre_host` is not set. -/
def sampleEnvironmentNoHost : Environment := fun name =>
  if name = "postgre_host" then none else sampleEnvironment name

/-- A driver that answers every `PQconnectdb` with a fresh ready connection
(numbered by the calls made so far) and has no result to give. -/
def readyDriver : Driver :=
  { connect := fun calls _ => { conn := some (calls.length + 1),
                                status := ConnStatusType.CONNECTION_OK }
    exec := fun _ _ => none
    calls := [] }

/-- A driver whose connections are never ready. -/
def refusingDriver : Driver :=
  { connect := fun calls _ => { conn := some (calls.length + 1),
                                status := ConnStatusType.CONNECTION_BAD }
    exec := fun _ _ => none
    calls := [] }

/-- A freshly constructed adapter. -/
def sampleAdapter : DatabaseConnection :=
  { conn := none, connectionInfo := "dbname=patient user=nurse" }

/-- Reference parameters before a call: empty texts and zeros. -/
def zeroed : PatientData FloatValue :=
  { name := "", gender := "", ageGroup := "", exactAge := "",
    heartRate := 0, bloodPressure1 := 0, bloodPressure2 := 0,
    temperature := FloatValue.finite false 0 }

/-- A driver that answers every statement with the one-tuple result whose
columns are `columns`. -/
def oneRowDriver (columns : List String) : Driver :=
  { connect := fun past _ => { conn := some (past.length + 1),
                               status := ConnStatusType.CONNECTION_OK }
    exec := fun _ _ => some { status := ExecStatusType.PGRES_TUPLES_OK,
                              tuples := [fun column => columns.getD column ""] }
    calls := [] }

/-- A driver that answers every statement with a result of the given status
and no tuple. -/
def noRowDriver (status : ExecStatusType) : Driver :=
  { connect := fun past _ => { conn := some (past.length + 1),
                               status := ConnStatusType.CONNECTION_OK }
    exec := fun _ _ => some { status := status, tuples := [] }
    calls := [] }

/-- The one-tuple answer for a patient whose heart rate is NULL in the table. -/
def nullHeartRateDriver : Driver :=
  oneRowDriver ["Jane Doe", "F", "Adult", "34", "", "120", "80", "37.46"]

/-- The one-tuple answer for a complete row. -/
def completeRowDriver : Driver :=
  oneRowDriver ["Jane Doe", "F", "Adult", "34", "72", "120", "80", "37.46"]

/-- The one-tuple answer whose id column is beyond `INT_MAX`. -/
def largeIdDriver : Driver := oneRowDriver ["2147483648"]

/-- A name that closes the quoted literal of the lookup query. -/
def injectedName : String := "'; DROP TABLE patient_health_data; --"

/-- A name with an embedded NUL character. -/
def nameWithNUL : String := String.mk ['A', 'n', 'n', NUL, 'B']

/-! ## Theorems -/

open DatabaseConnection

/-- C1: when the driver reports the connection it opens as ready, two successive
`getConnection()` calls on an adapter return the same non-null handle, and the
second call leaves the adapter unchanged and makes no driver call at all. -/
theorem getConnection_twice_same_handle (self : DatabaseConnection) (drv : Driver)
    (hready : self.conn = none →
      PQstatus (drv.connect drv.calls (c_str self.connectionInfo)) =
        ConnStatusType.CONNECTION_OK) :
    (getConnection self drv).1 ≠ none ∧
    (getConnection (getConnection self drv).2.1 (getConnection self drv).2.2).1 =
      (getConnection self drv).1 ∧
    (getConnection (getConnection self drv).2.1 (getConnection self drv).2.2).2.1 =
      (getConnection self drv).2.1 ∧
    (getConnection (getConnection self drv).2.1 (getConnection self drv).2.2).2.2.calls =
      (getConnection self drv).2.2.calls := by
  cases hc : self.conn with
  | some c => simp [getConnection, hc]
  | none =>
    have hok := hready hc
    cases hr : (drv.connect drv.calls (c_str self.connectionInfo)).conn with
    | none => simp [PQstatus, hr] at hok
    | some h => simp [getConnection, hc, hok, hr]

/-- C8: on an adapter with no stored connection, a non-ready answer makes
`getConnection()` release the handle it was given (the driver sees `PQconnectdb`
followed by `PQfinish` of that handle), return the null handle and keep the
stored handle null; the next `getConnection()` starts with a new `PQconnectdb`. -/
theorem getConnection_not_ready (self : DatabaseConnection) (drv : Driver)
    (hnull : self.conn = none)
    (hbad : PQstatus (drv.connect drv.calls (c_str self.connectionInfo)) ≠
      ConnStatusType.CONNECTION_OK) :
    (getConnection self drv).1 = none ∧
    (getConnection self drv).2.1.conn = none ∧
    (getConnection self drv).2.1.connectionInfo = self.connectionInfo ∧
    (getConnection self drv).2.2.calls = drv.calls ++
      [DriverCall.PQconnectdb (c_str self.connectionInfo)
          (drv.connect drv.calls (c_str self.connectionInfo)).conn,
        DriverCall.PQfinish (drv.connect drv.calls (c_str self.connectionInfo)).conn] ∧
    ((getConnection (getConnection self drv).2.1 (getConnection self drv).2.2).2.2.calls.drop
        (getConnection self drv).2.2.calls.length).head? =
      some (DriverCall.PQconnectdb (c_str self.connectionInfo)
        ((getConnection self drv).2.2.connect (getConnection self drv).2.2.calls
          (c_str self.connectionInfo)).conn) := by
  have h1 : getConnection self drv =
      (none, { self with conn := none },
        (drv.record (DriverCall.PQconnectdb (c_str self.connectionInfo)
          (drv.connect drv.calls (c_str self.connectionInfo)).conn)).record
          (DriverCall.PQfinish (drv.connect drv.calls (c_str self.connectionInfo)).conn)) := by
    simp [getConnection, hnull, hbad]
  rw [h1]
  refine ⟨rfl, rfl, rfl, by simp [Driver.record], ?_⟩
  simp only [getConnection]
  split_ifs <;> simp [Driver.record]

/-- Witness of C1 on a fresh adapter and a driver that answers ready. -/
theorem getConnection_twice_same_handle_witness :
    (sampleAdapter.conn = none →
      PQstatus (readyDriver.connect readyDriver.calls (c_str sampleAdapter.connectionInfo)) =
        ConnStatusType.CONNECTION_OK) ∧
    ((getConnection sampleAdapter readyDriver).1 ≠ none ∧
    (getConnection (getConnection sampleAdapter readyDriver).2.1
        (getConnection sampleAdapter readyDriver).2.2).1 =
      (getConnection sampleAdapter readyDriver).1 ∧
    (getConnection (getConnection sampleAdapter readyDriver).2.1
        (getConnection sampleAdapter readyDriver).2.2).2.1 =
      (getConnection sampleAdapter readyDriver).2.1 ∧
    (getConnection (getConnection sampleAdapter readyDriver).2.1
        (getConnection sampleAdapter readyDriver).2.2).2.2.calls =
      (getConnection sampleAdapter readyDriver).2.2.calls) :=
  ⟨by decide, getConnection_twice_same_handle sampleAdapter readyDriver (by decide)⟩

/-- Witness of C8 on a fresh adapter and a driver that refuses. -/
theorem getConnection_not_ready_witness :
    (sampleAdapter.conn = none ∧
      PQstatus (refusingDriver.connect refusingDriver.calls
        (c_str sampleAdapter.connectionInfo)) ≠ ConnStatusType.CONNECTION_OK) ∧
    (getConnection sampleAdapter refusingDriver).1 = none ∧
    (getConnection sampleAdapter refusingDriver).2.2.calls =
      [DriverCall.PQconnectdb "dbname=patient user=nurse" (some 1),
        DriverCall.PQfinish (some 1)] :=
  ⟨⟨by decide, by decide⟩,
    (getConnection_not_ready sampleAdapter refusingDriver (by decide) (by decide)).1,
    by decide⟩

/-- C2: construction fails, with the `std::runtime_error` of `getConnectionInfo`,
exactly when at least one of the four variables is absent; when all four are
present it yields an adapter. -/
theorem construct_fails_iff_missing (env : Environment) :
    (construct env = Except.error (CxxException.runtime_error
        "Error: One or more environment variables are missing.") ↔
      (env "postgre_user" = none ∨ env "postgre_password" = none ∨
        env "postgre_host" = none ∨ env "postgre_port" = none)) ∧
    ((∃ self, construct env = Except.ok self) ↔
      ¬ (env "postgre_user" = none ∨ env "postgre_password" = none ∨
        env "postgre_host" = none ∨ env "postgre_port" = none)) := by
  unfold construct getConnectionInfo
  cases env "postgre_user" <;> cases env "postgre_password" <;>
    cases env "postgre_host" <;> cases env "postgre_port" <;> simp

/-- Witness of C2: construction fails in the environment without
`postgre_host` and succeeds in the one with all four variables. -/
theorem construct_fails_iff_missing_witness :
    construct sampleEnvironmentNoHost = Except.error (CxxException.runtime_error
        "Error: One or more environment variables are missing.") ∧
    ∃ self, construct sampleEnvironment = Except.ok self :=
  ⟨(construct_fails_iff_missing sampleEnvironmentNoHost).1.mpr
      (Or.inr (Or.inr (Or.inl (by decide)))),
    (construct_fails_iff_missing sampleEnvironment).2.mpr (by decide)⟩

/-- C10: with the four variables present the connection string is the fixed
text with the database name `patient` and the four values in the order user,
password, host address, port. -/
theorem getConnectionInfo_text (env : Environment) (user password host port : String)
    (huser : env "postgre_user" = some user)
    (hpassword : env "postgre_password" = some password)
    (hhost : env "postgre_host" = some host)
    (hport : env "postgre_port" = some port) :
    getConnectionInfo env =
      Except.ok ("dbname=patient user=" ++ user ++ " password=" ++ password ++
        " hostaddr=" ++ host ++ " port=" ++ port) := by
  simp [getConnectionInfo, huser, hpassword, hhost, hport]

/-- Witness of C10 on the sample environment. -/
theorem getConnectionInfo_text_witness :
    getConnectionInfo sampleEnvironment =
      Except.ok "dbname=patient user=nurse password=s3cret hostaddr=127.0.0.1 port=5432" :=
  getConnectionInfo_text sampleEnvironment "nurse" "s3cret" "127.0.0.1" "5432"
    (by decide) (by decide) (by decide) (by decide)

/-! ### Connection life cycle -/

theorem openHandles_append (calls : List DriverCall) (c : DriverCall) :
    openHandles (calls ++ [c]) = (openHandles calls).bind (fun l => trackCall l c) := by
  simp [openHandles, List.foldl_append]

theorem atMostOneOpen_nil : AtMostOneOpen [] := by
  intro k
  exact ⟨[], by simp [openHandles], by simp⟩

theorem atMostOneOpen_append (calls : List DriverCall) (c : DriverCall)
    (h : AtMostOneOpen calls)
    (hc : ∃ live, openHandles (calls ++ [c]) = some live ∧ live.length ≤ 1) :
    AtMostOneOpen (calls ++ [c]) := by
  intro k
  rcases Nat.lt_or_ge calls.length k with hk | hk
  · rw [List.take_of_length_le (by simp; omega)]
    exact hc
  · rw [List.take_append_of_le_length hk]
    exact h k

theorem owns_getConnection (self : DatabaseConnection) (drv : Driver) (h : Owns self drv) :
    Owns (getConnection self drv).2.1 (getConnection self drv).2.2 := by
  obtain ⟨hpre, hlive⟩ := h
  cases hc : self.conn with
  | some c =>
    have : getConnection self drv = (some c, self, drv) := by simp [getConnection, hc]
    rw [this]
    exact ⟨hpre, hlive⟩
  | none =>
    rw [hc] at hlive
    simp only [Option.toList] at hlive
    cases hr : (drv.connect drv.calls (c_str self.connectionInfo)).conn with
    | none =>
      have hg : getConnection self drv =
          (none, { self with conn := none },
            (drv.record (DriverCall.PQconnectdb (c_str self.connectionInfo) none)).record
              (DriverCall.PQfinish none)) := by
        simp [getConnection, hc, PQstatus, hr]
      rw [hg]
      have h1 : openHandles (drv.calls ++ [DriverCall.PQconnectdb (c_str self.connectionInfo) none])
          = some [] := by
        rw [openHandles_append, hlive]; rfl
      have h2 : openHandles ((drv.calls ++
          [DriverCall.PQconnectdb (c_str self.connectionInfo) none]) ++
          [DriverCall.PQfinish none]) = some [] := by
        rw [openHandles_append, h1]; rfl
      refine ⟨?_, by simpa [Driver.record] using h2⟩
      simp only [Driver.record]
      exact atMostOneOpen_append _ _
        (atMostOneOpen_append _ _ hpre ⟨[], h1, by simp⟩) ⟨[], h2, by simp⟩
    | some p =>
      have h1 : openHandles (drv.calls ++
          [DriverCall.PQconnectdb (c_str self.connectionInfo) (some p)]) = some [p] := by
        rw [openHandles_append, hlive]; rfl
      have hpre1 := atMostOneOpen_append _ _ hpre ⟨[p], h1, by simp⟩
      by_cases hok : (drv.connect drv.calls (c_str self.connectionInfo)).status =
          ConnStatusType.CONNECTION_OK
      · have hg : getConnection self drv =
            (some p, { self with conn := some p },
              drv.record (DriverCall.PQconnectdb (c_str self.connectionInfo) (some p))) := by
          simp [getConnection, hc, PQstatus, hr, hok]
        rw [hg]
        exact ⟨by simpa [Driver.record] using hpre1, by simpa [Driver.record] using h1⟩
      · have hg : getConnection self drv =
            (none, { self with conn := none },
              (drv.record (DriverCall.PQconnectdb (c_str self.connectionInfo) (some p))).record
                (DriverCall.PQfinish (some p))) := by
          simp [getConnection, hc, PQstatus, hr, hok]
        rw [hg]
        have h2 : openHandles ((drv.calls ++
            [DriverCall.PQconnectdb (c_str self.connectionInfo) (some p)]) ++
            [DriverCall.PQfinish (some p)]) = some [] := by
          rw [openHandles_append, h1]; simp [trackCall]
        refine ⟨?_, by simpa [Driver.record] using h2⟩
        simp only [Driver.record]
        exact atMostOneOpen_append _ _ hpre1 ⟨[], h2, by simp⟩

theorem owns_getConnections (n : Nat) :
    ∀ (self : DatabaseConnection) (drv : Driver), Owns self drv →
      Owns (getConnections n self drv).1 (getConnections n self drv).2 := by
  induction n with
  | zero => intro self drv h; exact h
  | succ n ih =>
    intro self drv h
    exact ih _ _ (owns_getConnection self drv h)

theorem closed_after_destruct (self : DatabaseConnection) (drv : Driver) (h : Owns self drv) :
    AtMostOneOpen (destruct self drv).calls ∧ openHandles (destruct self drv).calls = some [] := by
  obtain ⟨hpre, hlive⟩ := h
  cases hc : self.conn with
  | none =>
    rw [hc] at hlive
    have : destruct self drv = drv := by simp [destruct, hc]
    rw [this]
    exact ⟨hpre, hlive⟩
  | some c =>
    rw [hc] at hlive
    have hd : destruct self drv = drv.record (DriverCall.PQfinish (some c)) := by
      simp [destruct, hc]
    rw [hd]
    have h2 : openHandles (drv.calls ++ [DriverCall.PQfinish (some c)]) = some [] := by
      rw [openHandles_append, hlive]; simp [trackCall]
    exact ⟨atMostOneOpen_append _ _ hpre ⟨[], h2, by simp⟩, h2⟩

theorem opened_eq_closed_add_open (calls : List DriverCall) :
    ∀ live, openHandles calls = some live →
      ∀ h, timesOpened calls h = timesClosed calls h + live.count h := by
  induction calls using List.reverseRecOn with
  | nil =>
    intro live hl h
    simp only [openHandles, List.foldl_nil, Option.some.injEq] at hl
    subst hl
    simp [timesOpened, timesClosed]
  | append_singleton calls c ih =>
    intro live hl h
    rw [openHandles_append] at hl
    cases hprev : openHandles calls with
    | none => simp [hprev] at hl
    | some before =>
      rw [hprev] at hl
      simp only [Option.some_bind] at hl
      have hb := ih before hprev h
      simp only [timesOpened, timesClosed, List.countP_append, List.countP_singleton] at hb ⊢
      cases c with
      | PQconnectdb info result =>
        cases result with
        | none =>
          simp only [trackCall, Option.some.injEq] at hl
          subst hl
          simpa using hb
        | some p =>
          simp only [trackCall, Option.some.injEq] at hl
          subst hl
          by_cases hp : p = h
          · simp [hp, List.count_cons]; omega
          · simp [hp, List.count_cons]; omega
      | PQfinish conn =>
        cases conn with
        | none =>
          simp only [trackCall, Option.some.injEq] at hl
          subst hl
          simpa using hb
        | some p =>
          simp only [trackCall] at hl
          split_ifs at hl with hmem
          simp only [Option.some.injEq] at hl
          subst hl
          by_cases hp : p = h
          · subst hp
            have hpos : 0 < before.count p := List.count_pos_iff.mpr hmem
            simp [List.count_erase_self]; omega
          · have : (before.erase p).count h = before.count h :=
              List.count_erase_of_ne (Ne.symm hp) before
            simp [hp, this]; omega
      | PQexec conn query =>
        simp only [trackCall, Option.some.injEq] at hl
        subst hl
        simpa using hb
      | PQexecParams conn command n params =>
        simp only [trackCall, Option.some.injEq] at hl
        subst hl
        simpa using hb

/-- C9: over the whole life of an adapter (construction, any number of
`getConnection()` calls answered ready or not in any mix, destruction), after
every driver call at most one handle obtained from the driver is open, no call
closes a handle that is not open, at the end no handle is left open, and every
handle was given to `PQfinish` as many times as the driver handed it out: each
handle opened was closed exactly once. -/
theorem lifetime_handles_balanced (connect : List DriverCall → String → ConnectReply)
    (exec : List DriverCall → DriverCall → Option PGresult) (info : String) (n : Nat) :
    (∀ k, ∃ live, openHandles ((lifetime connect exec info n).take k) = some live ∧
      live.length ≤ 1) ∧
    openHandles (lifetime connect exec info n) = some [] ∧
    (∀ h, timesClosed (lifetime connect exec info n) h =
      timesOpened (lifetime connect exec info n) h) := by
  have h0 : Owns { conn := none, connectionInfo := info }
      { connect := connect, exec := exec, calls := [] } :=
    ⟨atMostOneOpen_nil, by simp [openHandles]⟩
  have hend := closed_after_destruct _ _ (owns_getConnections n _ _ h0)
  refine ⟨hend.1, hend.2, fun h => ?_⟩
  have := opened_eq_closed_add_open _ [] hend.2 h
  simpa using this.symm

/-! ### Decimal text of an `int` -/

theorem digitChar_isdigit (d : Nat) (h : d < 10) : isdigit (digitChar d) = true := by
  interval_cases d <;> rfl

theorem digitChar_value (d : Nat) (h : d < 10) : (digitChar d).toNat - 48 = d := by
  interval_cases d <;> rfl

theorem isdigit_not_special (c : Char) (h : isdigit c = true) :
    c ≠ NUL ∧ c ≠ '-' ∧ c ≠ '+' ∧ isspace c = false := by
  refine ⟨?_, ?_, ?_, ?_⟩
  · rintro rfl; revert h; decide
  · rintro rfl; revert h; decide
  · rintro rfl; revert h; decide
  · simp only [isdigit, Bool.and_eq_true, decide_eq_true_eq] at h
    simp only [isspace, Bool.or_eq_false_iff, Bool.and_eq_false_iff, decide_eq_false_iff_not]
    omega

theorem decimalDigits_acc (fuel : Nat) :
    ∀ (n : Nat) (acc : List Char), decimalDigits fuel n acc = decimalDigits fuel n [] ++ acc := by
  induction fuel with
  | zero => intro n acc; simp [decimalDigits]
  | succ fuel ih =>
    intro n acc
    by_cases h : n < 10
    · simp [decimalDigits, h]
    · simp only [decimalDigits, h, if_false]
      rw [ih (n / 10) (digitChar (n % 10) :: acc), ih (n / 10) [digitChar (n % 10)]]
      simp

theorem digitsValue_append (xs : List Char) (c : Char) :
    digitsValue (xs ++ [c]) = 10 * digitsValue xs + (c.toNat - 48) := by
  simp [digitsValue, List.foldl_append]

theorem decimalDigits_spec (fuel : Nat) :
    ∀ n : Nat, n < fuel →
      (∀ c ∈ decimalDigits fuel n [], isdigit c = true) ∧
      digitsValue (decimalDigits fuel n []) = n ∧
      decimalDigits fuel n [] ≠ [] := by
  induction fuel with
  | zero => intro n h; omega
  | succ fuel ih =>
    intro n hn
    by_cases h : n < 10
    · simp only [decimalDigits, h, if_true]
      refine ⟨?_, ?_, by simp⟩
      · intro c hc
        simp only [List.mem_singleton] at hc
        rw [hc]; exact digitChar_isdigit n h
      · simp [digitsValue, digitChar_value n h]
    · simp only [decimalDigits, h, if_false]
      rw [decimalDigits_acc]
      have hlt : n / 10 < fuel := by omega
      obtain ⟨hall, hval, hne⟩ := ih (n / 10) hlt
      refine ⟨?_, ?_, by simp [hne]⟩
      · intro c hc
        rcases List.mem_append.mp hc with hc | hc
        · exact hall c hc
        · simp only [List.mem_singleton] at hc
          rw [hc]; exact digitChar_isdigit _ (Nat.mod_lt _ (by decide))
      · rw [digitsValue_append, hval, digitChar_value _ (Nat.mod_lt _ (by decide))]
        omega

theorem stoi_of_digits (ds : List Char) (hall : ∀ c ∈ ds, isdigit c = true) (hne : ds ≠ []) :
    stoi (String.mk ds) = stoiDigits false ds ∧
    stoi (String.mk ('-' :: ds)) = stoiDigits true ds := by
  have htake : ds.takeWhile isdigit = ds := List.takeWhile_eq_self_iff.mpr hall
  obtain ⟨c, rest, rfl⟩ := List.exists_cons_of_ne_nil hne
  have hc := isdigit_not_special c (hall c (by simp))
  constructor
  · have hdrop : (c :: rest).dropWhile isspace = c :: rest := by
      simp [List.dropWhile, hc.2.2.2]
    unfold stoi
    simp only [hdrop]
    split
    · rename_i h; injection h with h1 _; exact absurd h1 hc.2.1
    · rename_i h; injection h with h1 _; exact absurd h1 hc.2.2.1
    · rw [htake]
  · have hdrop : ('-' :: c :: rest).dropWhile isspace = '-' :: c :: rest := by
      rw [List.dropWhile_cons_of_neg (by decide)]
    unfold stoi
    simp only [hdrop, htake]

theorem c_str_of_no_NUL (ds : List Char) (h : ∀ c ∈ ds, c ≠ NUL) :
    c_str (String.mk ds) = String.mk ds := by
  unfold c_str
  congr 1
  exact List.takeWhile_eq_self_iff.mpr (fun c hc => by simpa using h c hc)

theorem c_str_to_string (n : Int) : c_str (to_string n) = to_string n := by
  obtain ⟨hall, _, _⟩ := decimalDigits_spec (n.natAbs + 1) n.natAbs (by omega)
  unfold to_string
  split
  · apply c_str_of_no_NUL
    intro c hc
    rcases List.mem_cons.mp hc with hc | hc
    · rw [hc]; decide
    · exact (isdigit_not_special c (hall c hc)).1
  · apply c_str_of_no_NUL
    intro c hc
    exact (isdigit_not_special c (hall c hc)).1

/-- Parsing the decimal text `std::to_string` produces for an `int` gives the
`int` back. -/
theorem stoi_to_string (n : Int) (hmin : INT_MIN ≤ n) (hmax : n ≤ INT_MAX) :
    stoi (to_string n) = Except.ok n := by
  obtain ⟨hall, hval, hne⟩ := decimalDigits_spec (n.natAbs + 1) n.natAbs (by omega)
  obtain ⟨hpos, hneg⟩ := stoi_of_digits _ hall hne
  have hempty : (decimalDigits (n.natAbs + 1) n.natAbs []).isEmpty = false := by
    cases hd : decimalDigits (n.natAbs + 1) n.natAbs [] with
    | nil => exact absurd hd hne
    | cons _ _ => rfl
  unfold INT_MIN at hmin
  unfold INT_MAX at hmax
  unfold to_string
  split
  · rw [hneg]
    simp only [stoiDigits, hempty, hval, INT_MIN, INT_MAX]
    have : -((n.natAbs : Nat) : Int) = n := by omega
    simp only [Bool.false_eq_true, if_false, if_true, this]
    rw [if_neg (by omega)]
  · rw [hpos]
    simp only [stoiDigits, hempty, hval, INT_MIN, INT_MAX]
    have : ((n.natAbs : Nat) : Int) = n := by omega
    simp only [Bool.false_eq_true, if_false, this]
    rw [if_neg (by omega)]

/-! ### Statements -/

/-- C3: when the driver's answer is not `PGRES_TUPLES_OK`, or is
`PGRES_TUPLES_OK` with no tuple, `retrievePatientId` leaves `id` and
`retrievePatientData` leaves all eight reference parameters at their values
before the call, and both return normally. -/
theorem retrieve_failure_keeps_outputs {F : Type} (fp : FloatOps F) (drv : Driver)
    (conn : Option PGconn) (idBefore : Int) (name : String) (id : Int) (out : PatientData F) :
    ((PQresultStatus (drv.exec drv.calls
          (DriverCall.PQexec conn (c_str (patientIdQuery name)))) ≠
        ExecStatusType.PGRES_TUPLES_OK ∨
      PQntuples (drv.exec drv.calls
          (DriverCall.PQexec conn (c_str (patientIdQuery name)))) = 0) →
      (retrievePatientId drv conn idBefore name).1 = idBefore ∧
      (retrievePatientId drv conn idBefore name).2.1 = Completion.returned) ∧
    ((PQresultStatus (drv.exec drv.calls
          (DriverCall.PQexecParams conn (c_str patientDataQuery) 1 [c_str (to_string id)])) ≠
        ExecStatusType.PGRES_TUPLES_OK ∨
      PQntuples (drv.exec drv.calls
          (DriverCall.PQexecParams conn (c_str patientDataQuery) 1 [c_str (to_string id)])) = 0) →
      (retrievePatientData fp drv conn id out).1 = out ∧
      (retrievePatientData fp drv conn id out).2.1 = Completion.returned) := by
  constructor
  · intro h
    unfold retrievePatientId
    rcases h with h | h
    · simp [h]
    · by_cases hs : PQresultStatus (drv.exec drv.calls
          (DriverCall.PQexec conn (c_str (patientIdQuery name)))) =
          ExecStatusType.PGRES_TUPLES_OK <;> simp [hs, h]
  · intro h
    unfold retrievePatientData
    rcases h with h | h
    · simp [h]
    · by_cases hs : PQresultStatus (drv.exec drv.calls
          (DriverCall.PQexecParams conn (c_str patientDataQuery) 1 [c_str (to_string id)])) =
          ExecStatusType.PGRES_TUPLES_OK <;> simp [hs, h]

/-- Witness of C3: a driver that answers `PGRES_FATAL_ERROR` for the lookup by
name, and one that answers `PGRES_TUPLES_OK` with no tuple for the fetch by id. -/
theorem retrieve_failure_keeps_outputs_witness :
    ((retrievePatientId (noRowDriver ExecStatusType.PGRES_FATAL_ERROR) (some 1) 41 "Jane Doe").1
        = 41 ∧
      (retrievePatientId (noRowDriver ExecStatusType.PGRES_FATAL_ERROR) (some 1) 41
        "Jane Doe").2.1 = Completion.returned) ∧
    ((retrievePatientData (ieeeOps floatRound) (noRowDriver ExecStatusType.PGRES_TUPLES_OK) (some 1) 7
        zeroed).1 = zeroed ∧
      (retrievePatientData (ieeeOps floatRound) (noRowDriver ExecStatusType.PGRES_TUPLES_OK) (some 1) 7
        zeroed).2.1 = Completion.returned) :=
  ⟨(retrieve_failure_keeps_outputs (ieeeOps floatRound) (noRowDriver ExecStatusType.PGRES_FATAL_ERROR)
      (some 1) 41 "Jane Doe" 7 zeroed).1 (Or.inl (by decide)),
    (retrieve_failure_keeps_outputs (ieeeOps floatRound) (noRowDriver ExecStatusType.PGRES_TUPLES_OK)
      (some 1) 41 "Jane Doe" 7 zeroed).2 (Or.inr (by decide))⟩

/-- C4, counterexample: a `PGRES_TUPLES_OK` answer with one tuple whose heart
rate column is empty.  `retrievePatientData` does not set the eight outputs:
`std::stoi` raises `std::invalid_argument`, and the three integers and the
temperature keep their values from before the call. -/
theorem retrievePatientData_not_all_set :
    PQresultStatus (nullHeartRateDriver.exec nullHeartRateDriver.calls
        (DriverCall.PQexecParams (some 1) (c_str patientDataQuery) 1 [c_str (to_string 7)])) =
      ExecStatusType.PGRES_TUPLES_OK ∧
    PQntuples (nullHeartRateDriver.exec nullHeartRateDriver.calls
        (DriverCall.PQexecParams (some 1) (c_str patientDataQuery) 1 [c_str (to_string 7)])) = 1 ∧
    (retrievePatientData (ieeeOps floatRound) nullHeartRateDriver (some 1) 7 zeroed).2.1 =
      Completion.threw CxxException.invalid_argument ∧
    (retrievePatientData (ieeeOps floatRound) nullHeartRateDriver (some 1) 7 zeroed).1 =
      { zeroed with name := "Jane Doe", gender := "F", ageGroup := "Adult", exactAge := "34" } := by
  decide!

theorem retrievePatientData_of_tuple {F : Type} (fp : FloatOps F) (drv : Driver)
    (conn : Option PGconn) (id : Int) (out : PatientData F)
    (res : PGresult) (first : Nat → String) (others : List (Nat → String))
    (heartRate bloodPressure1 bloodPressure2 : Int) (x : F)
    (hexec : drv.exec drv.calls
      (DriverCall.PQexecParams conn (c_str patientDataQuery) 1 [c_str (to_string id)]) = some res)
    (hstatus : res.status = ExecStatusType.PGRES_TUPLES_OK)
    (htuples : res.tuples = first :: others)
    (h4 : stoi (first 4) = Except.ok heartRate)
    (h5 : stoi (first 5) = Except.ok bloodPressure1)
    (h6 : stoi (first 6) = Except.ok bloodPressure2)
    (h7 : fp.stof (first 7) = Except.ok x) :
    (retrievePatientData fp drv conn id out).1 =
        { name := first 0, gender := first 1, ageGroup := first 2, exactAge := first 3,
          heartRate := heartRate, bloodPressure1 := bloodPressure1,
          bloodPressure2 := bloodPressure2,
          temperature := fp.divInt (fp.round (fp.mulInt x 10)) 10 } ∧
      (retrievePatientData fp drv conn id out).2.1 = Completion.returned := by
  have hget : ∀ k, PQgetvalue (some res) 0 k = first k := by
    intro k; simp [PQgetvalue, htuples]
  unfold retrievePatientData
  simp only [hexec, PQresultStatus, hstatus, PQntuples, htuples, assignPatientData, hget,
    h4, h5, h6, h7]
  simp

/-- C4, amended: for a `PGRES_TUPLES_OK` answer with at least one tuple whose
columns 4, 5, 6 are text `std::stoi` accepts and whose column 7 is text
`std::stof` accepts, `retrievePatientData` returns normally and the eight
outputs are columns 0..3 of the first tuple as text, columns 4..6 parsed as
integers, and `round(x * 10) / 10` for the value `x` of column 7.  In the
`float` arithmetic of the program, on every platform, the column text 37.46
gives 37.5 and 36.04 gives 36.0. -/
theorem retrievePatientData_outputs {F : Type} (fp : FloatOps F) (drv : Driver)
    (conn : Option PGconn) (id : Int) (out : PatientData F)
    (res : PGresult) (first : Nat → String) (others : List (Nat → String))
    (heartRate bloodPressure1 bloodPressure2 : Int) (x : F)
    (hexec : drv.exec drv.calls
      (DriverCall.PQexecParams conn (c_str patientDataQuery) 1 [c_str (to_string id)]) = some res)
    (hstatus : res.status = ExecStatusType.PGRES_TUPLES_OK)
    (htuples : res.tuples = first :: others)
    (h4 : stoi (first 4) = Except.ok heartRate)
    (h5 : stoi (first 5) = Except.ok bloodPressure1)
    (h6 : stoi (first 6) = Except.ok bloodPressure2)
    (h7 : fp.stof (first 7) = Except.ok x) :
    ((retrievePatientData fp drv conn id out).1 =
        { name := first 0, gender := first 1, ageGroup := first 2, exactAge := first 3,
          heartRate := heartRate, bloodPressure1 := bloodPressure1,
          bloodPressure2 := bloodPressure2,
          temperature := fp.divInt (fp.round (fp.mulInt x 10)) 10 } ∧
      (retrievePatientData fp drv conn id out).2.1 = Completion.returned) ∧
    (∀ p : Toolchain,
      (ieeeOps p).stof "37.46" = Except.ok (FloatValue.finite false (4909957 / 131072)) ∧
      (ieeeOps p).divInt ((ieeeOps p).round
        ((ieeeOps p).mulInt (FloatValue.finite false (4909957 / 131072)) 10)) 10 =
        FloatValue.finite false (375 / 10)) ∧
    (∀ p : Toolchain,
      (ieeeOps p).stof "36.04" = Except.ok (FloatValue.finite false (4723835 / 131072)) ∧
      (ieeeOps p).divInt ((ieeeOps p).round
        ((ieeeOps p).mulInt (FloatValue.finite false (4723835 / 131072)) 10)) 10 =
        FloatValue.finite false (360 / 10)) := by
  refine ⟨retrievePatientData_of_tuple fp drv conn id out res first others heartRate
    bloodPressure1 bloodPressure2 x hexec hstatus htuples h4 h5 h6 h7, ?_, ?_⟩
  · rintro ⟨_ | _, _ | _⟩ <;> decide!
  · rintro ⟨_ | _, _ | _⟩ <;> decide!

/-- Witness of C4 (amended) on the answer with a complete row. -/
theorem retrievePatientData_outputs_witness :
    (retrievePatientData (ieeeOps floatRound) completeRowDriver (some 1) 7 zeroed).1 =
      { name := "Jane Doe", gender := "F", ageGroup := "Adult", exactAge := "34",
        heartRate := 72, bloodPressure1 := 120, bloodPressure2 := 80,
        temperature := (ieeeOps floatRound).divInt ((ieeeOps floatRound).round
          ((ieeeOps floatRound).mulInt (FloatValue.finite false (4909957 / 131072)) 10)) 10 } ∧
    (retrievePatientData (ieeeOps floatRound) completeRowDriver (some 1) 7 zeroed).2.1 =
      Completion.returned :=
  (retrievePatientData_outputs (ieeeOps floatRound) completeRowDriver (some 1) 7 zeroed
    { status := ExecStatusType.PGRES_TUPLES_OK,
      tuples := [fun column =>
        ["Jane Doe", "F", "Adult", "34", "72", "120", "80", "37.46"].getD column ""] }
    (fun column => ["Jane Doe", "F", "Adult", "34", "72", "120", "80", "37.46"].getD column "")
    [] 72 120 80 (FloatValue.finite false (4909957 / 131072)) rfl rfl rfl
    (by decide) (by decide) (by decide) (by decide!)).1

set_option maxRecDepth 100000 in
/-- C6, the code at the failing input: `retrievePatientId` sends the driver a
statement text that contains the name, so the text differs from name to name;
for `O'Brien` the quote of the name ends the literal, and for a name that
starts with a quote the rest of the name is a statement of its own.  The
sibling `retrievePatientData` sends one fixed text and binds its argument. -/
theorem retrievePatientId_query_contains_name :
    (∀ (drv : Driver) (conn : Option PGconn) (id : Int) (name : String),
      (retrievePatientId drv conn id name).2.2.calls =
        drv.calls ++ [DriverCall.PQexec conn (c_str (patientIdQuery name))]) ∧
    (retrievePatientId (noRowDriver ExecStatusType.PGRES_FATAL_ERROR) (some 1) 0
        "O'Brien").2.2.calls =
      [DriverCall.PQexec (some 1)
        "SELECT id FROM patient_health_data WHERE name = 'O'Brien';"] ∧
    (retrievePatientId (noRowDriver ExecStatusType.PGRES_FATAL_ERROR) (some 1) 0
        injectedName).2.2.calls =
      [DriverCall.PQexec (some 1)
        "SELECT id FROM patient_health_data WHERE name = ''; DROP TABLE patient_health_data; --';"] ∧
    c_str (patientIdQuery "O'Brien") ≠ c_str (patientIdQuery injectedName) ∧
    (∀ (F : Type) (fp : FloatOps F) (drv : Driver) (conn : Option PGconn) (id : Int)
        (out : PatientData F),
      (retrievePatientData fp drv conn id out).2.2.calls =
        drv.calls ++ [DriverCall.PQexecParams conn (c_str patientDataQuery) 1
          [c_str (to_string id)]]) := by
  refine ⟨?_, by decide, by decide, by decide, ?_⟩
  · intro drv conn id name
    unfold retrievePatientId
    simp only [Driver.record]
    split_ifs
    · rfl
    · rfl
    · split <;> rfl
  · intro F fp drv conn id out
    unfold retrievePatientData
    simp only [Driver.record]
    split_ifs <;> rfl

/-- C7, counterexample: the driver answers the lookup by name with one tuple
whose id column holds 2147483648; the `std::out_of_range` of `std::stoi` leaves
`retrievePatientId`. -/
theorem retrievePatientId_raises :
    PQresultStatus (largeIdDriver.exec largeIdDriver.calls
        (DriverCall.PQexec (some 1) (c_str (patientIdQuery "Jane Doe")))) =
      ExecStatusType.PGRES_TUPLES_OK ∧
    (retrievePatientId largeIdDriver (some 1) 0 "Jane Doe").2.1 =
      Completion.threw CxxException.out_of_range := by
  decide

theorem stoiDigits_error (negative : Bool) (digits : List Char) (e : CxxException)
    (h : stoiDigits negative digits = Except.error e) :
    e = CxxException.invalid_argument ∨ e = CxxException.out_of_range := by
  simp only [stoiDigits] at h
  split_ifs at h <;> injection h with h <;> simp [← h]

theorem stoi_error (s : String) (e : CxxException) (h : stoi s = Except.error e) :
    e = CxxException.invalid_argument ∨ e = CxxException.out_of_range := by
  unfold stoi at h
  split at h <;> exact stoiDigits_error _ _ e h

/-- C7, amended: `retrievePatientId` and `retrievePatientData` return normally
exactly when the answer is not `PGRES_TUPLES_OK`, or has no tuple, or the
numeric columns of its first tuple (column 0 for the id; columns 4, 5, 6 and 7
for the record) are text the conversion accepts; otherwise the exception of the
failing conversion leaves the operation, which for `std::stoi` is
`std::invalid_argument` or `std::out_of_range`.  Construction raises only the
`std::runtime_error` of a missing variable. -/
theorem completion_of_retrieval {F : Type} (fp : FloatOps F) (drv : Driver)
    (conn : Option PGconn) (idBefore : Int) (name : String) (id : Int) (out : PatientData F) :
    ((retrievePatientId drv conn idBefore name).2.1 = Completion.returned ↔
      (PQresultStatus (drv.exec drv.calls
          (DriverCall.PQexec conn (c_str (patientIdQuery name)))) ≠
        ExecStatusType.PGRES_TUPLES_OK ∨
       PQntuples (drv.exec drv.calls
          (DriverCall.PQexec conn (c_str (patientIdQuery name)))) = 0 ∨
       ∃ v, stoi (PQgetvalue (drv.exec drv.calls
          (DriverCall.PQexec conn (c_str (patientIdQuery name)))) 0 0) = Except.ok v)) ∧
    (∀ e, (retrievePatientId drv conn idBefore name).2.1 = Completion.threw e →
      e = CxxException.invalid_argument ∨ e = CxxException.out_of_range) ∧
    ((retrievePatientData fp drv conn id out).2.1 = Completion.returned ↔
      (PQresultStatus (drv.exec drv.calls
          (DriverCall.PQexecParams conn (c_str patientDataQuery) 1 [c_str (to_string id)])) ≠
        ExecStatusType.PGRES_TUPLES_OK ∨
       PQntuples (drv.exec drv.calls
          (DriverCall.PQexecParams conn (c_str patientDataQuery) 1 [c_str (to_string id)])) = 0 ∨
       ((∃ v, stoi (PQgetvalue (drv.exec drv.calls (DriverCall.PQexecParams conn
            (c_str patientDataQuery) 1 [c_str (to_string id)])) 0 4) = Except.ok v) ∧
        (∃ v, stoi (PQgetvalue (drv.exec drv.calls (DriverCall.PQexecParams conn
            (c_str patientDataQuery) 1 [c_str (to_string id)])) 0 5) = Except.ok v) ∧
        (∃ v, stoi (PQgetvalue (drv.exec drv.calls (DriverCall.PQexecParams conn
            (c_str patientDataQuery) 1 [c_str (to_string id)])) 0 6) = Except.ok v) ∧
        (∃ x, fp.stof (PQgetvalue (drv.exec drv.calls (DriverCall.PQexecParams conn
            (c_str patientDataQuery) 1 [c_str (to_string id)])) 0 7) = Except.ok x)))) ∧
    (∀ e, (retrievePatientData fp drv conn id out).2.1 = Completion.threw e →
      stoi (PQgetvalue (drv.exec drv.calls (DriverCall.PQexecParams conn
          (c_str patientDataQuery) 1 [c_str (to_string id)])) 0 4) = Except.error e ∨
      stoi (PQgetvalue (drv.exec drv.calls (DriverCall.PQexecParams conn
          (c_str patientDataQuery) 1 [c_str (to_string id)])) 0 5) = Except.error e ∨
      stoi (PQgetvalue (drv.exec drv.calls (DriverCall.PQexecParams conn
          (c_str patientDataQuery) 1 [c_str (to_string id)])) 0 6) = Except.error e ∨
      fp.stof (PQgetvalue (drv.exec drv.calls (DriverCall.PQexecParams conn
          (c_str patientDataQuery) 1 [c_str (to_string id)])) 0 7) = Except.error e) ∧
    (∀ env e, construct env = Except.error e →
      e = CxxException.runtime_error "Error: One or more environment variables are missing." ∧
      (env "postgre_user" = none ∨ env "postgre_password" = none ∨
        env "postgre_host" = none ∨ env "postgre_port" = none)) := by
  refine ⟨?_, ?_, ?_, ?_, ?_⟩
  · simp only [retrievePatientId]
    generalize drv.exec drv.calls (DriverCall.PQexec conn (c_str (patientIdQuery name))) = res
    by_cases hs : PQresultStatus res = ExecStatusType.PGRES_TUPLES_OK
    · by_cases hn : PQntuples res = 0
      · simp [hs, hn]
      · cases hv : stoi (PQgetvalue res 0 0) <;> simp [hs, hn, hv]
    · simp [hs]
  · intro e
    simp only [retrievePatientId]
    generalize drv.exec drv.calls (DriverCall.PQexec conn (c_str (patientIdQuery name))) = res
    by_cases hs : PQresultStatus res = ExecStatusType.PGRES_TUPLES_OK
    · by_cases hn : PQntuples res = 0
      · simp [hs, hn]
      · cases hv : stoi (PQgetvalue res 0 0) with
        | error e1 =>
          simp only [hs, hn, hv, ne_eq, not_true_eq_false, if_false]
          intro h
          injection h with h
          subst h
          exact stoi_error _ _ hv
        | ok v => simp [hs, hn, hv]
    · simp [hs]
  · simp only [retrievePatientData]
    generalize drv.exec drv.calls (DriverCall.PQexecParams conn (c_str patientDataQuery) 1
      [c_str (to_string id)]) = res
    by_cases hs : PQresultStatus res = ExecStatusType.PGRES_TUPLES_OK
    · by_cases hn : PQntuples res = 0
      · simp [hs, hn]
      · cases h4 : stoi (PQgetvalue res 0 4) <;> cases h5 : stoi (PQgetvalue res 0 5) <;>
          cases h6 : stoi (PQgetvalue res 0 6) <;> cases h7 : fp.stof (PQgetvalue res 0 7) <;>
          simp [hs, hn, assignPatientData, h4, h5, h6, h7]
    · simp [hs]
  · intro e
    simp only [retrievePatientData]
    generalize drv.exec drv.calls (DriverCall.PQexecParams conn (c_str patientDataQuery) 1
      [c_str (to_string id)]) = res
    by_cases hs : PQresultStatus res = ExecStatusType.PGRES_TUPLES_OK
    · by_cases hn : PQntuples res = 0
      · simp [hs, hn]
      · cases h4 : stoi (PQgetvalue res 0 4) <;> cases h5 : stoi (PQgetvalue res 0 5) <;>
          cases h6 : stoi (PQgetvalue res 0 6) <;> cases h7 : fp.stof (PQgetvalue res 0 7) <;>
          simp [hs, hn, assignPatientData, h4, h5, h6, h7] <;>
          (intro h; simp [h])
    · simp [hs]
  · intro env e
    unfold construct getConnectionInfo
    cases env "postgre_user" <;> cases env "postgre_password" <;>
      cases env "postgre_host" <;> cases env "postgre_port" <;> simp <;>
      (intro h; exact h.symm)

/-! ### Round trip through the storing database -/

set_option maxRecDepth 100000 in
theorem statement_texts :
    c_str insertSql = insertSql ∧ c_str patientDataQuery = patientDataQuery ∧
    patientDataQuery ≠ insertSql := by
  decide

theorem insertPatientData_record {F : Type} (fp : FloatOps F) (drv : Driver)
    (conn : Option PGconn) (name gender ageGroup exactAge : String)
    (heartRate bloodPressure1 bloodPressure2 : Int) (temperature : F) :
    insertPatientData fp drv conn name gender ageGroup exactAge heartRate bloodPressure1
        bloodPressure2 temperature =
      drv.record (DriverCall.PQexecParams conn (c_str insertSql) 8
        (insertParams fp name gender ageGroup exactAge heartRate bloodPressure1 bloodPressure2
          temperature)) := by
  unfold insertPatientData
  simp

theorem storedRows_insert (calls : List DriverCall) (conn : Option PGconn) (n : Nat)
    (params : List String) :
    storedRows (calls ++ [DriverCall.PQexecParams conn (c_str insertSql) n params]) =
      storedRows calls ++ [params] := by
  simp [storedRows, List.filterMap_append, statement_texts.1]

theorem storedRow_assigned (calls : List DriverCall) (conn : Option PGconn) (n : Nat)
    (params : List String) :
    storedRow (calls ++ [DriverCall.PQexecParams conn (c_str insertSql) n params])
      (assignedId calls) = some params := by
  unfold storedRow assignedId
  rw [storedRows_insert, if_pos (by omega)]
  have : (((storedRows calls).length : Int) + 1).toNat - 1 = (storedRows calls).length := by
    omega
  rw [this]
  simp

theorem storingExec_select (calls : List DriverCall) (conn conn1 : Option PGconn) (n : Nat)
    (params : List String) (hid : assignedId calls ≤ INT_MAX) :
    storingExec (calls ++ [DriverCall.PQexecParams conn (c_str insertSql) n params])
        (DriverCall.PQexecParams conn1 (c_str patientDataQuery) 1
          [c_str (to_string (assignedId calls))]) =
      some { status := ExecStatusType.PGRES_TUPLES_OK,
             tuples := [fun column => params.getD column ""] } := by
  have hmin : INT_MIN ≤ assignedId calls := by
    unfold INT_MIN assignedId; omega
  simp only [storingExec, statement_texts.2.1, statement_texts.2.2, if_false, if_true,
    c_str_to_string, stoi_to_string (assignedId calls) hmin hid, storedRow_assigned]

set_option maxRecDepth 100000 in
/-- C5, counterexample: three records for which the fetched fields differ from
the inputs.  The temperature 0.2499999999 is bound as the text `0.250000` and
fetched as 0.3 (the `float` or the `double` nearest to it), while the input
rounded to one decimal place is 0.2.  A name with an embedded NUL is bound up to
the NUL and fetched without its tail.  The record of the scenario, where
`round` is the `float` overload: the temperature 98.6 is fetched as
12923699/131072 = 98.5999984741211, the `float` nearest to 98.6, which is not
the `double` 98.6 that was inserted. -/
theorem roundTrip_differs :
    (to_string_double (doubleLiteral (2499999999 / 10000000000)) = "0.250000" ∧
      (roundTrip (ieeeOps floatRound) [] (some 1) "Jane Doe" "F" "Adult" "34" 72 120 80
        (doubleLiteral (2499999999 / 10000000000)) zeroed).1.temperature =
        roundToFormat binary32 false (3 / 10) ∧
      (roundTrip (ieeeOps doubleRound) [] (some 1) "Jane Doe" "F" "Adult" "34" 72 120 80
        (doubleLiteral (2499999999 / 10000000000)) zeroed).1.temperature =
        doubleLiteral (3 / 10) ∧
      FloatValue.div binary64 (FloatValue.round (FloatValue.mul binary64
          (doubleLiteral (2499999999 / 10000000000)) (ofInt binary64 10))) (ofInt binary64 10) =
        doubleLiteral (2 / 10) ∧
      roundToFormat binary32 false (3 / 10) ≠ doubleLiteral (2 / 10) ∧
      doubleLiteral (3 / 10) ≠ doubleLiteral (2 / 10)) ∧
    ((roundTrip (ieeeOps floatRound) [] (some 1) nameWithNUL "F" "Adult" "34" 72 120 80
        (doubleLiteral (986 / 10)) zeroed).1.name = "Ann" ∧
      nameWithNUL ≠ "Ann") ∧
    ((roundTrip (ieeeOps floatRound) [] (some 1) "Jane Doe" "F" "Adult" "34" 72 120 80
        (doubleLiteral (986 / 10)) zeroed).1.temperature =
        FloatValue.finite false (12923699 / 131072) ∧
      FloatValue.finite false (12923699 / 131072) ≠ doubleLiteral (986 / 10)) := by
  decide!

set_option maxRecDepth 100000 in
/-- C5, amended: a record inserted into the storing database and fetched by
the id it was assigned comes back with each of the four strings as it was
bound (its text up to the first NUL, the whole string when it has none), the
three `int` values equal to the inputs, and the temperature `round(x * 10) / 10`
where `x` is what `std::stof` reads from the text `std::to_string` produced for
the input temperature.  The record
`("Jane Doe","F","Adult","34",72,120,80,98.6)` comes back with its strings and
integers equal to the inputs on every platform; its temperature is the input
98.6 where `round` is `double round(double)`, and the `float` nearest to 98.6,
98.5999984741211, where `round` is the overload `float round(float)`. -/
theorem roundTrip_fetches {F : Type} (fp : FloatOps F) (calls : List DriverCall)
    (conn : Option PGconn) (name gender ageGroup exactAge : String)
    (heartRate bloodPressure1 bloodPressure2 : Int) (temperature : F) (out : PatientData F)
    (x : F)
    (hheartRate : INT_MIN ≤ heartRate ∧ heartRate ≤ INT_MAX)
    (hbloodPressure1 : INT_MIN ≤ bloodPressure1 ∧ bloodPressure1 ≤ INT_MAX)
    (hbloodPressure2 : INT_MIN ≤ bloodPressure2 ∧ bloodPressure2 ≤ INT_MAX)
    (hid : assignedId calls ≤ INT_MAX)
    (hx : fp.stof (c_str (fp.to_string temperature)) = Except.ok x) :
    roundTrip fp calls conn name gender ageGroup exactAge heartRate bloodPressure1
        bloodPressure2 temperature out =
      ({ name := c_str name, gender := c_str gender, ageGroup := c_str ageGroup,
         exactAge := c_str exactAge, heartRate := heartRate,
         bloodPressure1 := bloodPressure1, bloodPressure2 := bloodPressure2,
         temperature := fp.divInt (fp.round (fp.mulInt x 10)) 10 },
       Completion.returned) ∧
    (∀ s : String, (∀ c ∈ s.data, c ≠ NUL) → c_str s = s) ∧
    (∀ p : Toolchain,
      roundTrip (ieeeOps p) [] (some 1) "Jane Doe" "F" "Adult" "34" 72 120 80
          (doubleLiteral (986 / 10)) zeroed =
        ({ name := "Jane Doe", gender := "F", ageGroup := "Adult", exactAge := "34",
           heartRate := 72, bloodPressure1 := 120, bloodPressure2 := 80,
           temperature :=
             if p.roundIsFloat then FloatValue.finite false (12923699 / 131072)
             else doubleLiteral (986 / 10) },
         Completion.returned)) := by
  refine ⟨?_, fun s hs => c_str_of_no_NUL s.data hs, ?_⟩
  · have hfetch := retrievePatientData_of_tuple fp
      ((storingDatabase calls).record (DriverCall.PQexecParams conn (c_str insertSql) 8
        (insertParams fp name gender ageGroup exactAge heartRate bloodPressure1 bloodPressure2
          temperature)))
      conn (assignedId calls) out
      { status := ExecStatusType.PGRES_TUPLES_OK,
        tuples := [fun column => (insertParams fp name gender ageGroup exactAge heartRate
          bloodPressure1 bloodPressure2 temperature).getD column ""] }
      (fun column => (insertParams fp name gender ageGroup exactAge heartRate
          bloodPressure1 bloodPressure2 temperature).getD column "")
      [] heartRate bloodPressure1 bloodPressure2 x
      (by simp only [Driver.record, storingDatabase]
          exact storingExec_select calls conn conn 8 _ hid)
      rfl rfl
      (by simp [insertParams, c_str_to_string,
            stoi_to_string heartRate hheartRate.1 hheartRate.2])
      (by simp [insertParams, c_str_to_string,
            stoi_to_string bloodPressure1 hbloodPressure1.1 hbloodPressure1.2])
      (by simp [insertParams, c_str_to_string,
            stoi_to_string bloodPressure2 hbloodPressure2.1 hbloodPressure2.2])
      (by simpa [insertParams] using hx)
    unfold roundTrip
    rw [insertPatientData_record]
    exact Prod.ext hfetch.1 hfetch.2
  · rintro ⟨_ | _, _ | _⟩ <;> decide!

set_option maxRecDepth 100000 in
/-- Witness of C5 (amended): the record of the scenario into an empty database,
where `round` is `double round(double)`. -/
theorem roundTrip_fetches_witness :
    roundTrip (ieeeOps doubleRound) [] (some 1) "Jane Doe" "F" "Adult" "34" 72 120 80
        (doubleLiteral (986 / 10)) zeroed =
      ({ name := c_str "Jane Doe", gender := c_str "F", ageGroup := c_str "Adult",
         exactAge := c_str "34", heartRate := 72, bloodPressure1 := 120, bloodPressure2 := 80,
         temperature := (ieeeOps doubleRound).divInt ((ieeeOps doubleRound).round
           ((ieeeOps doubleRound).mulInt (FloatValue.finite false (12923699 / 131072)) 10)) 10 },
       Completion.returned) :=
  (roundTrip_fetches (ieeeOps doubleRound) [] (some 1) "Jane Doe" "F" "Adult" "34" 72 120 80
    (doubleLiteral (986 / 10)) zeroed (FloatValue.finite false (12923699 / 131072))
    (by decide) (by decide) (by decide) (by decide) (by decide!)).1

end HealthMonitoring
